import Mathlib

/-!
Verification of the query-routing and parameter-validation layer of the
`asobi-serverless` telemetry API (source: `src/lambda_function.py`, the
nine-route implementation that the specification's normative text describes;
`src/main.py` is a near-duplicate earlier variant whose divergences the
specification flags as open questions — its two divergent validators are
embedded at the end for comparison).

The embedding is shallow: Python strings become `String` (processed as
`List Char`, mirroring code-point-wise operations), Python `None` becomes
`Option`, the DynamoDB table becomes an explicit `List TelemetryRecord`
threaded through every function, and each DynamoDB query is modelled as an
access plan (partition-key equality, optional sort-key range, post-filter
attribute equalities) evaluated by filtering the store.  External stdlib
collaborators (`int()`, `datetime.fromisoformat`, `sorted`) are modelled on
the ASCII fragment exercised by this program, as documented on each model.
-/

namespace AsobiServerless

/-! ## Lexicographic string order (models Python string comparison)

Python compares strings lexicographically by code point; DynamoDB compares
its string keys bytewise in UTF-8, which yields the same order.  Lean's
built-in `String` order is not kernel-reducible, so we define the
comparison directly on the character lists. -/

/-- Lexicographic less-or-equal on character lists by code point. -/
def lexLe : List Char → List Char → Bool
  | [], _ => true
  | _ :: _, [] => false
  | a :: as, b :: bs =>
      if a.toNat < b.toNat then true
      else if a.toNat = b.toNat then lexLe as bs
      else false

/-- Lexicographic order on strings, as a proposition. -/
def strLe (a b : String) : Prop := lexLe a.data b.data = true

instance : DecidableRel strLe := fun a b => by unfold strLe; infer_instance

instance : IsTotal String strLe := ⟨fun a b => by
  unfold strLe
  generalize a.data = l1
  generalize b.data = l2
  induction l1 generalizing l2 with
  | nil => left; rfl
  | cons x xs ih =>
      cases l2 with
      | nil => right; rfl
      | cons y ys =>
          simp only [lexLe]
          rcases Nat.lt_trichotomy x.toNat y.toNat with hc | hc | hc
          · left; simp [hc]
          · rcases ih ys with h | h
            · left; simp [hc, h]
            · right; simp [hc.symm, h]
          · right; simp [hc]⟩

instance : IsTrans String strLe := ⟨fun a b c => by
  unfold strLe
  generalize a.data = l1
  generalize b.data = l2
  generalize c.data = l3
  intro hab hbc
  induction l1 generalizing l2 l3 with
  | nil => rfl
  | cons x xs ih =>
      cases l2 with
      | nil => simp [lexLe] at hab
      | cons y ys =>
          cases l3 with
          | nil => simp [lexLe] at hbc
          | cons z zs =>
              simp only [lexLe] at hab hbc ⊢
              split at hab
              · split at hbc
                · simp; omega
                · split at hbc
                  · simp; omega
                  · exact absurd hbc (by simp)
              · split at hab
                · split at hbc
                  · simp; omega
                  · split at hbc
                    · have hxz : ¬ x.toNat < z.toNat := by omega
                      have hxz2 : x.toNat = z.toNat := by omega
                      simp [hxz, hxz2]
                      exact ih ys zs hab hbc
                    · exact absurd hbc (by simp)
                · exact absurd hab (by simp)⟩

/-- Models Python `sorted(list(set(l)))` for a list of strings: deduplicate,
then sort lexicographically.  For distinct elements the sorted output is
uniquely determined by the total order, so insertion sort is a faithful
model of CPython's (stable) sort. -/
def pySortedSet (l : List String) : List String :=
  (l.dedup).insertionSort strLe


/-! ## Models of stdlib string helpers used by the validators -/

/-- Models Python `s.split('_')`: split a character list at every
underscore.  `''.split('_') == ['']`, and in general the number of parts is
one more than the number of underscores. -/
def splitUnderscore : List Char → List (List Char)
  | [] => [[]]
  | c :: cs =>
      match splitUnderscore cs with
      | [] => [[c]]
      | p :: ps => if c = '_' then [] :: p :: ps else (c :: p) :: ps

/-- Numeric value of a list of ASCII digit characters (most significant
first). -/
def digitsToNat (ds : List Char) : Nat :=
  ds.foldl (fun a c => a * 10 + (c.toNat - '0'.toNat)) 0

/-- Returns `some` of the numeric value when the list is a non-empty run of ASCII
digits, else `none`. -/
def digitsToNatChecked (ds : List Char) : Option Nat :=
  if (!ds.isEmpty) && ds.all Char.isDigit then some (digitsToNat ds) else none

/-- Models Python `int(s)` for a string argument, on the ASCII fragment this
program can ever pass to it: optional surrounding whitespace, one optional
sign, then a non-empty run of ASCII digits; anything else raises
`ValueError`, modelled as `none`.  (CPython additionally accepts Unicode
digit characters and digit-group underscores; underscores cannot occur here
because every argument comes from a `split('_')` part, and non-ASCII digits
are outside the modelled fragment.) -/
def pyIntParse (l : List Char) : Option Int :=
  let l1 := l.dropWhile Char.isWhitespace
  let l2 := (l1.reverse.dropWhile Char.isWhitespace).reverse
  match l2 with
  | '+' :: ds => (digitsToNatChecked ds).map (fun n => (n : Int))
  | '-' :: ds => (digitsToNatChecked ds).map (fun n => -(n : Int))
  | ds => (digitsToNatChecked ds).map (fun n => (n : Int))

/-! ## Validators (`src/lambda_function.py` lines 27–93)

Pure predicates; the `isinstance(_, str)` guards are vacuous in the typed
embedding. -/

/-- Validator `validate_device_id`: exactly one `_`, splitting into a non-empty type
part and a numeric part whose integer value is positive. -/
def validate_device_id (device_id : String) : Bool :=
  match splitUnderscore device_id.data with
  | [device_type, device_num] =>
      match pyIntParse device_num with
      | none => false
      | some num => decide (device_type.length > 0) && decide (num > 0)
  | _ => false

/-- Validator `validate_room_id`: exactly one `_`, prefix part literally `room`,
numeric part parsing to a positive integer, exactly 3 characters long and
all digits. -/
def validate_room_id (room_id : String) : Bool :=
  match splitUnderscore room_id.data with
  | [pre, room_num] =>
      if pre ≠ "room".data then false
      else
        match pyIntParse room_num with
        | none => false
        | some num =>
            decide (num > 0) && decide (room_num.length = 3) &&
              room_num.all Char.isDigit
  | _ => false

/-- Validator `validate_status`: membership in the fixed lowercase set. -/
def validate_status (status : String) : Bool :=
  status ∈ (["ok", "sensor_error", "offline", "maintenance"] : List String)

/-! ### Model of `datetime.fromisoformat`

The validator delegates calendar validation to the stdlib collaborator
`datetime.fromisoformat`.  The model below is a faithful port of CPython
3.11's C implementation (`_datetimemodule.c`, the parser of the current
AWS Lambda Python runtime family), which is substantially more liberal
than the documented grammar and than the pure-Python fallback:

* a non-ASCII character at codepoint position 7, 8 or 10 (the possible
  date-time separator positions) is first replaced by `T`, and the string
  is then processed as UTF-8 bytes;
* dates may be `YYYY-MM-DD`, `YYYYMMDD`, or ISO week dates
  (`YYYY-Www[-D]` / `YYYYWww[D]`), validated against the calendar
  (leap years, 53-week years);
* the date-time separator is any single byte;
* times are `HH[:?MM[:?SS]]` (all-separated or all-basic), a fractional
  part introduced by `.`, `,`, or a third `:` with one or more digits
  (digits beyond six are ignored), and one arbitrary junk byte is
  tolerated immediately before the timezone marker (a quirk of the C
  parser);
* the timezone is `Z` (only as the final byte) or `±` followed by the
  same time grammar, with total offset strictly below 24 hours;
* fields are range-checked (hour 23, minute/second 59, calendar days).
-/

/-- Whether a byte is an ASCII digit. -/
def isDigitB (b : Nat) : Bool := 48 ≤ b && b ≤ 57

/-- Parse exactly `n` ASCII-digit bytes from the front, most significant
first, accumulating onto `acc`. -/
def parseDigitsB (acc : Nat) : Nat → List Nat → Option (Nat × List Nat)
  | 0, l => some (acc, l)
  | _ + 1, [] => none
  | n + 1, b :: bs =>
      if isDigitB b then parseDigitsB (acc * 10 + (b - 48)) n bs else none

/-- UTF-8 encoding of one unicode scalar value. -/
def utf8Char (n : Nat) : List Nat :=
  if n < 128 then [n]
  else if n < 2048 then [192 + n / 64, 128 + n % 64]
  else if n < 65536 then [224 + n / 4096, 128 + (n / 64) % 64, 128 + n % 64]
  else [240 + n / 262144, 128 + (n / 4096) % 64, 128 + (n / 64) % 64,
        128 + n % 64]

/-- UTF-8 encoding of a character list as a byte list. -/
def utf8Encode : List Char → List Nat
  | [] => []
  | c :: cs => utf8Char c.toNat ++ utf8Encode cs

/-- The sanitisation step of CPython's `fromisoformat`: a non-ASCII
character at codepoint position 7, 8 or 10 is replaced by `T`. -/
def sanitizeSep (l : List Char) : List Char :=
  l.enum.map (fun ic =>
    if (ic.1 = 7 ∨ ic.1 = 8 ∨ ic.1 = 10) ∧ ic.2.toNat > 127 then 'T' else ic.2)

/-- Days in a calendar month, honouring Gregorian leap years. -/
def daysInMonth (y m : Nat) : Nat :=
  if m = 2 then
    if (y % 4 = 0 ∧ y % 100 ≠ 0) ∨ y % 400 = 0 then 29 else 28
  else if m = 4 ∨ m = 6 ∨ m = 9 ∨ m = 11 then 30 else 31

/-- Number of calendar days strictly before year `y`. -/
def daysBeforeYear (y : Nat) : Nat :=
  (y - 1) * 365 + (y - 1) / 4 - (y - 1) / 100 + (y - 1) / 400

/-- Ordinal day of the Monday starting ISO week 1 of a year. -/
def isoweek1monday (y : Nat) : Nat :=
  let firstday := daysBeforeYear y + 1
  let firstweekday := (firstday + 6) % 7
  let week1monday := firstday - firstweekday
  if firstweekday > 3 then week1monday + 7 else week1monday

/-- Validity of an ISO week date (year, week, weekday), as checked by
CPython's `_isoweek_to_gregorian`: the week exists in that ISO year
(53-week years start on Thursday, or on Wednesday in a leap year) and the
resulting ordinal day lies within year 1 to 9999. -/
def isoweekOk (year week day : Nat) : Bool :=
  let leap := (year % 4 = 0 ∧ year % 100 ≠ 0) ∨ year % 400 = 0
  let fw := (daysBeforeYear year + 1) % 7
  let weekOk := (0 < week ∧ week < 53) ∨ (week = 53 ∧ (fw = 4 ∨ (fw = 3 ∧ leap)))
  let ordDay := isoweek1monday year + (week - 1) * 7 + (day - 1)
  decide (1 ≤ year) && decide (year ≤ 9999) && decide weekOk &&
    decide (1 ≤ day) && decide (day ≤ 7) &&
    decide (1 ≤ ordDay) && decide (ordDay ≤ daysBeforeYear 9999 + 365)

/-- The date-time separator position, a byte-level port of CPython's
`_find_isoformat_datetime_separator`; `none` models the error cases. -/
def findSepB (b : List Nat) : Option Nat :=
  let L := b.length
  if L = 7 then some 7
  else if b.getD 4 0 = 45 then
    if b.getD 5 0 = 87 then
      if L > 8 ∧ b.getD 8 0 = 45 then
        if L = 9 then none
        else if L > 10 ∧ isDigitB (b.getD 10 0) then some 8
        else some 10
      else some 8
    else some 10
  else if b.getD 4 0 = 87 then
    let idx := 7 + ((b.drop 7).takeWhile isDigitB).length
    if idx < 9 then some idx
    else if idx % 2 = 0 then some 7 else some 8
  else some 8

/-- Parse the date portion (the whole of `dstr`): `YYYY-MM-DD`,
`YYYYMMDD`, or an ISO week date, with calendar validation. -/
def parseDateB (dstr : List Nat) : Bool :=
  match parseDigitsB 0 4 dstr with
  | none => false
  | some (year, r1) =>
      let hasSep := r1.headD 0 = 45
      let r2 := if hasSep then r1.tail else r1
      match r2 with
      | 87 :: r3 =>
          match parseDigitsB 0 2 r3 with
          | none => false
          | some (week, r4) =>
              match r4 with
              | [] => isoweekOk year week 1
              | _ =>
                  let r5 := if hasSep then
                      (match r4 with | 45 :: t => some t | _ => none)
                    else some r4
                  match r5 with
                  | none => false
                  | some r5v =>
                      match parseDigitsB 0 1 r5v with
                      | some (day, []) => isoweekOk year week day
                      | _ => false
      | _ =>
          match parseDigitsB 0 2 r2 with
          | none => false
          | some (month, r3) =>
              let r4 := if hasSep then
                  (match r3 with | 45 :: t => some t | _ => none)
                else some r3
              match r4 with
              | none => false
              | some r4v =>
                  match parseDigitsB 0 2 r4v with
                  | some (day, []) =>
                      decide (1 ≤ year) && decide (year ≤ 9999) &&
                        decide (1 ≤ month) && decide (month ≤ 12) &&
                        decide (1 ≤ day) && decide (day ≤ daysInMonth year month)
                  | _ => false

/-- Parse a fractional part: up to six digits are significant (at least
one byte must be available and digit-valued among the first
`min length 6`), further digits are skipped; returns the microsecond
value and the unconsumed tail. -/
def parseFracB (l : List Nat) : Option (Nat × List Nat) :=
  let toParse := min l.length 6
  match parseDigitsB 0 toParse l with
  | none => none
  | some (v, rest) => some (v * 10 ^ (6 - toParse), rest.dropWhile isDigitB)

/-- The component loop of CPython's `parse_hh_mm_ss_ff` over a byte
slice.  `remaining` counts components left (3 at entry), `isFirst` marks
the hour component, `tzFollows` records whether the slice is followed by
a timezone marker — in that case one junk byte is tolerated as the final
byte of the slice (the C parser quirk).  Returns the parsed component
values, the microseconds, and the unconsumed tail. -/
def hmsGo (tzFollows : Bool) :
    Nat → Bool → Bool → List Nat → List Nat →
      Option (List Nat × Nat × List Nat)
  | 0, _, _, _, _ => none
  | rem + 1, isFirst, hasSep0, acc, l =>
      match parseDigitsB 0 2 l with
      | none => none
      | some (v, rest) =>
          let acc := acc ++ [v]
          match rest with
          | [] => some (acc, 0, [])
          | c :: rest2 =>
              let hasSep := if isFirst then c = 58 else hasSep0
              match rest2 with
              | [] => if tzFollows then some (acc, 0, []) else none
              | _ =>
                  if c = 58 then
                    if !hasSep then none
                    else if rem = 0 then
                      match parseFracB rest2 with
                      | none => none
                      | some (us, leftover) => some (acc, us, leftover)
                    else hmsGo tzFollows rem false hasSep acc rest2
                  else if c = 46 ∨ c = 44 then
                    match parseFracB rest2 with
                    | none => none
                    | some (us, leftover) => some (acc, us, leftover)
                  else if !hasSep then
                    if rem = 0 then
                      match parseFracB (c :: rest2) with
                      | none => none
                      | some (us, leftover) => some (acc, us, leftover)
                    else hmsGo tzFollows rem false hasSep acc (c :: rest2)
                  else none

/-- Parse `HH[:?MM[:?SS[{.,:}fff]]]` over a byte slice; returns
`(hour, minute, second, microsecond, unconsumed tail)`. -/
def parseHmsB (l : List Nat) (tzFollows : Bool) :
    Option (Nat × Nat × Nat × Nat × List Nat) :=
  match hmsGo tzFollows 3 true false [] l with
  | none => none
  | some (vals, us, leftover) =>
      some (vals.getD 0 0, vals.getD 1 0, vals.getD 2 0, us, leftover)

/-- Parse and range-check the time-and-timezone portion of the string.
The timezone starts at the first `Z`, `+` or `-` byte; bytes between
where the time grammar stopped and that marker are ignored (the C parser
quirk); `Z` must be the final byte; a signed offset reuses the time
grammar and must be strictly below 24 hours in magnitude. -/
def parseTimeB (tstr : List Nat) : Bool :=
  if tstr.length < 2 then false
  else
    match tstr.findIdx? (fun b => b = 90 ∨ b = 43 ∨ b = 45) with
    | none =>
        match parseHmsB tstr false with
        | none => false
        | some (h, mi, s, _, leftover) =>
            leftover.isEmpty && decide (h ≤ 23) && decide (mi ≤ 59) &&
              decide (s ≤ 59)
    | some idx =>
        match parseHmsB (tstr.take idx) true with
        | none => false
        | some (h, mi, s, _, _) =>
            let timeOk := decide (h ≤ 23) && decide (mi ≤ 59) && decide (s ≤ 59)
            match tstr.drop idx with
            | 90 :: tzrest => tzrest.isEmpty && timeOk
            | _ :: tzrest =>
                match parseHmsB tzrest false with
                | none => false
                | some (th, tm, ts, tus, tleft) =>
                    tleft.isEmpty && timeOk &&
                      decide ((th * 3600 + tm * 60 + ts) * 1000000 + tus
                        < 86400000000)
            | [] => false

/-- Whether `datetime.fromisoformat` accepts the character list (see the
section comment for the modelled grammar). -/
def fromisoformatOk (l : List Char) : Bool :=
  let b := utf8Encode (sanitizeSep l)
  let L := b.length
  if L < 7 then false
  else
    match findSepB b with
    | none => false
    | some sep =>
        if !(parseDateB (b.take sep)) then false
        else if L = sep then true
        else parseTimeB (b.drop (sep + 1))

/-- Models Python `s.replace('Z', '+00:00')`: every occurrence of `Z` is
replaced. -/
def replaceZ : List Char → List Char
  | [] => []
  | c :: cs =>
      if c = 'Z' then '+' :: '0' :: '0' :: ':' :: '0' :: '0' :: replaceZ cs
      else c :: replaceZ cs

/-- Validator `validate_timestamp`: must end with the literal `Z`, and after replacing
`Z` with `+00:00` must be accepted by `datetime.fromisoformat`. -/
def validate_timestamp (timestamp : String) : Bool :=
  if timestamp.data.getLast? ≠ some 'Z' then false
  else fromisoformatOk (replaceZ timestamp.data)

/-! ## Characterisation lemmas for the string helpers -/


/-! ## Data model -/

/-- One telemetry reading, one DynamoDB item.  `temperature` is `none` for
the JSON-null case (`sensor_error` readings); numeric values are modelled
as integers (the numeric type plays no role in the query layer). -/
structure TelemetryRecord where
  device_id : String
  room_id : String
  timestamp : String
  device_status : String
  temperature : Option Int
deriving DecidableEq, Repr

/-- JSON-like values for response bodies. -/
inductive JsonVal where
  | null : JsonVal
  | bool : Bool → JsonVal
  | num : Int → JsonVal
  | str : String → JsonVal
  | arr : List JsonVal → JsonVal
  | obj : List (String × JsonVal) → JsonVal

/-- The API Gateway response produced by `create_response`.  The body is
kept structured; `json.dumps` serialization and the `decimal_to_float`
numeric normalization are identities on this model (numbers are already
plain) and are elided. -/
structure ApiResponse where
  statusCode : Nat
  headers : List (String × String)
  body : JsonVal

/-- The inbound API Gateway event, restricted to the keys the router and
handlers read.  `none` models an absent key; parameter-map values are
strings, as API Gateway delivers them. -/
structure ApiEvent where
  httpMethod : Option String
  resource : Option String
  pathParameters : Option (List (String × String))
  queryStringParameters : Option (List (String × String))

/-- Look up the first binding of a key in a parameter map (Python dict
access; dict keys are unique, so first-match agrees). -/
def dictGet (d : List (String × String)) (k : String) : Option String :=
  (d.find? (fun kv => kv.1 == k)).map (fun kv => kv.2)

/-- Extractor `extract_query_params`: `event.get('queryStringParameters') or {}`. -/
def extract_query_params (event : ApiEvent) : List (String × String) :=
  event.queryStringParameters.getD []

/-- Extractor `extract_path_params`: `event.get('pathParameters') or {}`. -/
def extract_path_params (event : ApiEvent) : List (String × String) :=
  event.pathParameters.getD []

/-! ## Parameter pipeline (`validate_params`, lines 113–125) -/

/-- The error-accumulating loop of `validate_params`: for each `(param,
value)` pair in order, if a validator is registered for `param` and the
value is present (`is not None`) and the validator rejects it, append
`"Invalid <param>: <value>"`. -/
def validationErrors : List (String × Option String) →
    List (String × (String → Bool)) → List String
  | [], _ => []
  | (param, value) :: rest, validators =>
      match value, validators.lookup param with
      | some v, some f =>
          if !(f v) then
            ("Invalid " ++ param ++ ": " ++ v) :: validationErrors rest validators
          else validationErrors rest validators
      | _, _ => validationErrors rest validators

/-- Pipeline `validate_params`: returns `(len(errors) == 0, errors)`. -/
def validate_params (params : List (String × Option String))
    (validators : List (String × (String → Bool))) : Bool × List String :=
  let errors := validationErrors params validators
  (errors.isEmpty, errors)

/-! ## Access plans and DynamoDB query functions (lines 132–325)

A `table.query` call is modelled as an access plan — partition-key
equality, an optional sort-key (`timestamp`) range condition, and a list of
post-filter attribute-equality conditions — evaluated by filtering the
store.  The secondary index (`room_id-timestamp-index`) contains exactly
the same records re-partitioned, so index queries filter the same store. -/

/-- The sort-key condition of a key-condition expression. -/
inductive SortCond where
  | full : SortCond
  | between : String → String → SortCond
  | gte : String → SortCond
  | lte : String → SortCond
deriving DecidableEq, Repr

/-- Whether a timestamp satisfies a sort-key condition.  DynamoDB's
`between`, `gte` and `lte` are all inclusive; strings compare bytewise,
which for these keys coincides with `lexLe`. -/
def SortCond.holds : SortCond → String → Bool
  | .full, _ => true
  | .between lo hi, ts => lexLe lo.data ts.data && lexLe ts.data hi.data
  | .gte lo, ts => lexLe lo.data ts.data
  | .lte hi, ts => lexLe ts.data hi.data

/-- An access plan: which attribute the partition-key equality constrains,
its value, the sort-key condition, and post-filter attribute equalities
(conjoined). -/
structure Plan where
  partitionAttr : String
  partitionVal : String
  sortCond : SortCond
  filters : List (String × String)
deriving Repr

/-- The value of a named item attribute (the four attributes this layer
ever references in conditions). -/
def attrVal (r : TelemetryRecord) : String → Option String
  | "device_id" => some r.device_id
  | "room_id" => some r.room_id
  | "timestamp" => some r.timestamp
  | "device_status" => some r.device_status
  | _ => none


/-- Whether a record satisfies a plan's key condition and all its
post-filters. -/
def matchesPlan (p : Plan) (r : TelemetryRecord) : Bool :=
  (attrVal r p.partitionAttr == some p.partitionVal) &&
    p.sortCond.holds r.timestamp &&
    p.filters.all (fun f => attrVal r f.1 == some f.2)

/-- Evaluate a plan against the store: the records selected by the key
condition and surviving the post-filters. -/
def runQuery (store : List TelemetryRecord) (p : Plan) : List TelemetryRecord :=
  store.filter (matchesPlan p)

/-- Python truthiness of an optional string parameter: `None` and `''` are
falsy.  The source guards every optional filter with plain `if param:`. -/
def pyTruthy : Option String → Bool
  | none => false
  | some s => !(s == "")

/-- The sort-key condition built by the `if start_time and end_time / elif
start_time / elif end_time` chain, repeated verbatim in
`query_device_by_id`, `query_room_by_id`, `query_room_device_specific` and
`query_device_in_specific_room`. -/
def timeKeyCond (start_time end_time : Option String) : SortCond :=
  if pyTruthy start_time && pyTruthy end_time then
    .between (start_time.getD "") (end_time.getD "")
  else if pyTruthy start_time then .gte (start_time.getD "")
  else if pyTruthy end_time then .lte (end_time.getD "")
  else .full

/-- Query `query_all_devices`: a full table scan. -/
def query_all_devices (store : List TelemetryRecord) : List TelemetryRecord :=
  store

/-- The plan built by `query_device_by_id`: partition key `device_id`,
sort-key range from the times, `device_status` as post-filter when a
truthy status is given. -/
def query_device_by_id_plan (device_id : String)
    (start_time end_time status : Option String) : Plan :=
  { partitionAttr := "device_id", partitionVal := device_id,
    sortCond := timeKeyCond start_time end_time,
    filters := if pyTruthy status then [("device_status", status.getD "")] else [] }

/-- Query `query_device_by_id`. -/
def query_device_by_id (store : List TelemetryRecord) (device_id : String)
    (start_time end_time status : Option String) : List TelemetryRecord :=
  runQuery store (query_device_by_id_plan device_id start_time end_time status)

/-- The plan built by `query_room_by_id`: partition key `room_id` on the
secondary index, sort-key range from the times, no post-filter. -/
def query_room_by_id_plan (room_id : String)
    (start_time end_time : Option String) : Plan :=
  { partitionAttr := "room_id", partitionVal := room_id,
    sortCond := timeKeyCond start_time end_time,
    filters := [] }

/-- Query `query_room_by_id`. -/
def query_room_by_id (store : List TelemetryRecord) (room_id : String)
    (start_time end_time : Option String) : List TelemetryRecord :=
  runQuery store (query_room_by_id_plan room_id start_time end_time)

/-- The plan built by `query_room_device_specific`: partition key `room_id`
on the secondary index, `device_id` always a post-filter, `device_status`
a second post-filter when a truthy status is given. -/
def query_room_device_specific_plan (room_id device_id : String)
    (start_time end_time status : Option String) : Plan :=
  { partitionAttr := "room_id", partitionVal := room_id,
    sortCond := timeKeyCond start_time end_time,
    filters := ("device_id", device_id) ::
      (if pyTruthy status then [("device_status", status.getD "")] else []) }

/-- Query `query_room_device_specific`. -/
def query_room_device_specific (store : List TelemetryRecord)
    (room_id device_id : String)
    (start_time end_time status : Option String) : List TelemetryRecord :=
  runQuery store
    (query_room_device_specific_plan room_id device_id start_time end_time status)

/-- The plan built by `query_device_in_specific_room`: partition key
`device_id` on the primary table, `room_id` always a post-filter,
`device_status` a second post-filter when a truthy status is given. -/
def query_device_in_specific_room_plan (device_id room_id : String)
    (start_time end_time status : Option String) : Plan :=
  { partitionAttr := "device_id", partitionVal := device_id,
    sortCond := timeKeyCond start_time end_time,
    filters := ("room_id", room_id) ::
      (if pyTruthy status then [("device_status", status.getD "")] else []) }

/-- Query `query_device_in_specific_room`. -/
def query_device_in_specific_room (store : List TelemetryRecord)
    (device_id room_id : String)
    (start_time end_time status : Option String) : List TelemetryRecord :=
  runQuery store
    (query_device_in_specific_room_plan device_id room_id start_time end_time status)

/-- Query `query_device_room_info`: partition-key query on `device_id` projected
to `room_id`, then `sorted(list(set(...)))`. -/
def query_device_room_info (store : List TelemetryRecord)
    (device_id : String) : List String :=
  pySortedSet ((store.filter (fun r => r.device_id == device_id)).map
    (fun r => r.room_id))

/-- Query `get_unique_rooms`: scan projected to `room_id`, dedup, sort. -/
def get_unique_rooms (store : List TelemetryRecord) : List String :=
  pySortedSet (store.map (fun r => r.room_id))

/-- Query `get_unique_devices`: scan projected to `device_id`, dedup, sort. -/
def get_unique_devices (store : List TelemetryRecord) : List String :=
  pySortedSet (store.map (fun r => r.device_id))

/-- The sorted unique device ids in a room (the set built inside
`get_devices_in_room` from the secondary-index query). -/
def devices_in_room_ids (store : List TelemetryRecord)
    (room_id : String) : List String :=
  pySortedSet ((store.filter (fun r => r.room_id == room_id)).map
    (fun r => r.device_id))

/-- Query `get_devices_in_room`: `[{'device_id': d} for d in sorted(devices)]`. -/
def get_devices_in_room (store : List TelemetryRecord)
    (room_id : String) : List JsonVal :=
  (devices_in_room_ids store room_id).map
    (fun d => JsonVal.obj [("device_id", JsonVal.str d)])

/-! ## Response shaping (lines 332–375) -/

/-- A record as it appears in a `data` payload. -/
def recordJson (r : TelemetryRecord) : JsonVal :=
  .obj [("device_id", .str r.device_id), ("room_id", .str r.room_id),
        ("timestamp", .str r.timestamp), ("device_status", .str r.device_status),
        ("temperature", match r.temperature with
          | none => .null
          | some t => .num t)]

/-- The CORS/content-type headers `create_response` always attaches. -/
def defaultHeaders : List (String × String) :=
  [("Content-Type", "application/json"),
   ("Access-Control-Allow-Origin", "*"),
   ("Access-Control-Allow-Methods", "GET, POST, PUT, DELETE, OPTIONS"),
   ("Access-Control-Allow-Headers", "Content-Type, Authorization")]

/-- Shaper `create_response` (no handler ever passes custom headers). -/
def create_response (status_code : Nat) (body : JsonVal) : ApiResponse :=
  { statusCode := status_code, headers := defaultHeaders, body := body }

/-- Shaper `create_error_response`: `{'error': message}` plus a `details` array
when a truthy (non-empty) error list is given. -/
def create_error_response (status_code : Nat) (message : String)
    (errors : Option (List String)) : ApiResponse :=
  create_response status_code
    (.obj (("error", .str message) ::
      (match errors with
       | some errs => if errs.isEmpty then [] else [("details", .arr (errs.map .str))]
       | none => [])))

/-! ## Route handlers (lines 382–612)

Each handler takes the store (the process-wide table handle) and the
event.  A `None` path parameter passes validation (absent values are
skipped) and then reaches the store call as a null key value, which the
store rejects; the raised failure is caught and surfaced as the handler's
500 branch, modelled by the explicit `none` arms below. -/

/-- Route `GET /` — all telemetry data. -/
def handle_root (store : List TelemetryRecord) (_event : ApiEvent) : ApiResponse :=
  let data := query_all_devices store
  create_response 200 (.obj [("data", .arr (data.map recordJson)),
                             ("count", .num data.length)])

/-- Route `GET /devices` — all unique device ids. -/
def handle_devices_list (store : List TelemetryRecord) (_event : ApiEvent) :
    ApiResponse :=
  let devices := get_unique_devices store
  create_response 200 (.obj [("devices", .arr (devices.map .str)),
                             ("count", .num devices.length)])

/-- Route `GET /devices/{device_id}` — telemetry for one device, with optional
`start_time`/`end_time`/`status` filters. -/
def handle_device_detail (store : List TelemetryRecord) (event : ApiEvent) :
    ApiResponse :=
  let path_params := extract_path_params event
  let query_params := extract_query_params event
  let device_id := dictGet path_params "device_id"
  let vr := validate_params [("device_id", device_id)]
    [("device_id", validate_device_id)]
  if !vr.1 then create_error_response 400 "Validation failed" (some vr.2)
  else
    let start_time := dictGet query_params "start_time"
    let end_time := dictGet query_params "end_time"
    let status := dictGet query_params "status"
    let optional_params := query_params.map (fun kv => (kv.1, some kv.2))
    let vq := validate_params optional_params
      [("start_time", validate_timestamp), ("end_time", validate_timestamp),
       ("status", validate_status)]
    if !vq.1 then
      create_error_response 400 "Query parameter validation failed" (some vq.2)
    else
      match device_id with
      | none => create_error_response 500
          "Failed to retrieve device data: Device query failed" none
      | some did =>
          let data := query_device_by_id store did start_time end_time status
          create_response 200 (.obj [("device_id", .str did),
                                     ("data", .arr (data.map recordJson)),
                                     ("count", .num data.length)])

/-- Route `GET /devices/{device_id}/rooms` — all rooms a device appears in. -/
def handle_device_rooms (store : List TelemetryRecord) (event : ApiEvent) :
    ApiResponse :=
  let path_params := extract_path_params event
  let device_id := dictGet path_params "device_id"
  let vr := validate_params [("device_id", device_id)]
    [("device_id", validate_device_id)]
  if !vr.1 then create_error_response 400 "Validation failed" (some vr.2)
  else
    match device_id with
    | none => create_error_response 500
        "Failed to retrieve device rooms: Device room query failed" none
    | some did =>
        let rooms := query_device_room_info store did
        create_response 200 (.obj [("device_id", .str did),
                                   ("rooms", .arr (rooms.map .str)),
                                   ("count", .num rooms.length)])

/-- Route `GET /devices/{device_id}/{room_id}` — one device in one room, via the
device partition with `room_id` as post-filter. -/
def handle_device_room_detail (store : List TelemetryRecord) (event : ApiEvent) :
    ApiResponse :=
  let path_params := extract_path_params event
  let query_params := extract_query_params event
  let device_id := dictGet path_params "device_id"
  let room_id := dictGet path_params "room_id"
  let vr := validate_params [("device_id", device_id), ("room_id", room_id)]
    [("device_id", validate_device_id), ("room_id", validate_room_id)]
  if !vr.1 then create_error_response 400 "Validation failed" (some vr.2)
  else
    let start_time := dictGet query_params "start_time"
    let end_time := dictGet query_params "end_time"
    let status := dictGet query_params "status"
    let optional_params := query_params.map (fun kv => (kv.1, some kv.2))
    let vq := validate_params optional_params
      [("start_time", validate_timestamp), ("end_time", validate_timestamp),
       ("status", validate_status)]
    if !vq.1 then
      create_error_response 400 "Query parameter validation failed" (some vq.2)
    else
      match device_id, room_id with
      | some did, some rid =>
          let data :=
            query_device_in_specific_room store did rid start_time end_time status
          create_response 200 (.obj [("device_id", .str did),
                                     ("room_id", .str rid),
                                     ("data", .arr (data.map recordJson)),
                                     ("count", .num data.length)])
      | _, _ => create_error_response 500
          "Failed to retrieve device-room data: Device-room query failed" none

/-- Route `GET /rooms` — all unique room ids. -/
def handle_rooms_list (store : List TelemetryRecord) (_event : ApiEvent) :
    ApiResponse :=
  let rooms := get_unique_rooms store
  create_response 200 (.obj [("rooms", .arr (rooms.map .str)),
                             ("count", .num rooms.length)])

/-- Route `GET /rooms/{room_id}` — all telemetry in one room (no `status`
validator and no status filter on this route). -/
def handle_room_detail (store : List TelemetryRecord) (event : ApiEvent) :
    ApiResponse :=
  let path_params := extract_path_params event
  let query_params := extract_query_params event
  let room_id := dictGet path_params "room_id"
  let vr := validate_params [("room_id", room_id)] [("room_id", validate_room_id)]
  if !vr.1 then create_error_response 400 "Validation failed" (some vr.2)
  else
    let start_time := dictGet query_params "start_time"
    let end_time := dictGet query_params "end_time"
    let optional_params := query_params.map (fun kv => (kv.1, some kv.2))
    let vq := validate_params optional_params
      [("start_time", validate_timestamp), ("end_time", validate_timestamp)]
    if !vq.1 then
      create_error_response 400 "Query parameter validation failed" (some vq.2)
    else
      match room_id with
      | none => create_error_response 500
          "Failed to retrieve room data: Room query failed" none
      | some rid =>
          let data := query_room_by_id store rid start_time end_time
          create_response 200 (.obj [("room_id", .str rid),
                                     ("data", .arr (data.map recordJson)),
                                     ("count", .num data.length)])

/-- Route `GET /rooms/{room_id}/devices` — unique devices in one room. -/
def handle_room_devices (store : List TelemetryRecord) (event : ApiEvent) :
    ApiResponse :=
  let path_params := extract_path_params event
  let room_id := dictGet path_params "room_id"
  let vr := validate_params [("room_id", room_id)] [("room_id", validate_room_id)]
  if !vr.1 then create_error_response 400 "Validation failed" (some vr.2)
  else
    match room_id with
    | none => create_error_response 500
        "Failed to retrieve room devices: Room devices query failed" none
    | some rid =>
        let devices := get_devices_in_room store rid
        create_response 200 (.obj [("room_id", .str rid),
                                   ("devices", .arr devices),
                                   ("count", .num devices.length)])

/-- Route `GET /rooms/{room_id}/{device_id}` — one device in one room, via the
secondary index with `device_id` as post-filter. -/
def handle_room_device_detail (store : List TelemetryRecord) (event : ApiEvent) :
    ApiResponse :=
  let path_params := extract_path_params event
  let query_params := extract_query_params event
  let room_id := dictGet path_params "room_id"
  let device_id := dictGet path_params "device_id"
  let vr := validate_params [("room_id", room_id), ("device_id", device_id)]
    [("room_id", validate_room_id), ("device_id", validate_device_id)]
  if !vr.1 then create_error_response 400 "Validation failed" (some vr.2)
  else
    let start_time := dictGet query_params "start_time"
    let end_time := dictGet query_params "end_time"
    let status := dictGet query_params "status"
    let optional_params := query_params.map (fun kv => (kv.1, some kv.2))
    let vq := validate_params optional_params
      [("start_time", validate_timestamp), ("end_time", validate_timestamp),
       ("status", validate_status)]
    if !vq.1 then
      create_error_response 400 "Query parameter validation failed" (some vq.2)
    else
      match room_id, device_id with
      | some rid, some did =>
          let data :=
            query_room_device_specific store rid did start_time end_time status
          create_response 200 (.obj [("room_id", .str rid),
                                     ("device_id", .str did),
                                     ("data", .arr (data.map recordJson)),
                                     ("count", .num data.length)])
      | _, _ => create_error_response 500
          "Failed to retrieve room-device data: Room-device query failed" none

/-! ## Routing (lines 619–650) -/

/-- The route table: `(method, resource template) → handler`. -/
def ROUTE_HANDLERS :
    List ((String × String) × (List TelemetryRecord → ApiEvent → ApiResponse)) :=
  [(("GET", "/"), handle_root),
   (("GET", "/devices"), handle_devices_list),
   (("GET", "/devices/{device_id}"), handle_device_detail),
   (("GET", "/devices/{device_id}/rooms"), handle_device_rooms),
   (("GET", "/devices/{device_id}/{room_id}"), handle_device_room_detail),
   (("GET", "/rooms"), handle_rooms_list),
   (("GET", "/rooms/{room_id}"), handle_room_detail),
   (("GET", "/rooms/{room_id}/devices"), handle_room_devices),
   (("GET", "/rooms/{room_id}/{device_id}"), handle_room_device_detail)]

/-- The main Lambda entry point: default the method to `GET` and the
resource template to `/`, look the pair up in the route table, 404 when
unmatched, otherwise dispatch. -/
def handler (store : List TelemetryRecord) (event : ApiEvent) : ApiResponse :=
  let http_method := event.httpMethod.getD "GET"
  let resource_path := event.resource.getD "/"
  match ROUTE_HANDLERS.lookup (http_method, resource_path) with
  | none =>
      create_error_response 404
        ("Route not found: " ++ http_method ++ " " ++ resource_path) none
  | some route_handler => route_handler store event

/-- Field access in an object body. -/
def bodyField (resp : ApiResponse) (k : String) : Option JsonVal :=
  match resp.body with
  | .obj fields => fields.lookup k
  | _ => none

/-! ## Auxiliary definitions for the theorems -/

/-- Canonical zero-padded room id string for a number up to 999. -/
def mkRoomId (n : Nat) : String :=
  ⟨"room_".data ++ [Char.ofNat ('0'.toNat + n / 100),
                    Char.ofNat ('0'.toNat + (n / 10) % 10),
                    Char.ofNat ('0'.toNat + n % 10)]⟩

/-- Property of a response: when it is a success (200), the body's `count`
field equals the length of the payload array (`data`, `devices` or
`rooms`) in that same body. -/
def count_ok (resp : ApiResponse) : Prop :=
  resp.statusCode = 200 →
    ∃ key xs, (key = "data" ∨ key = "devices" ∨ key = "rooms") ∧
      bodyField resp key = some (JsonVal.arr xs) ∧
      bodyField resp "count" = some (JsonVal.num xs.length)

/-! ## Divergent validators of the near-duplicate `src/main.py` -/

/-- Variant of `validate_room_id` in `src/main.py` line 47: any string that
is non-empty after stripping surrounding whitespace is accepted. -/
def main_validate_room_id (room_id : String) : Bool :=
  decide (0 < (((room_id.data.dropWhile Char.isWhitespace).reverse.dropWhile
    Char.isWhitespace).reverse).length)

/-- Variant of `validate_status` in `src/main.py` line 64: lowercases its
input before the membership test (case-insensitive). -/
def main_validate_status (status : String) : Bool :=
  (⟨status.data.map Char.toLower⟩ : String) ∈
    (["ok", "sensor_error", "offline", "maintenance"] : List String)

/-! ## Helper lemmas -/

theorem pySortedSet_sorted (l : List String) :
    List.Sorted strLe (pySortedSet l) :=
  List.sorted_insertionSort strLe l.dedup

theorem pySortedSet_nodup (l : List String) : (pySortedSet l).Nodup :=
  ((List.perm_insertionSort strLe l.dedup).symm).nodup (List.nodup_dedup l)

theorem mem_pySortedSet {s : String} {l : List String} :
    s ∈ pySortedSet l ↔ s ∈ l := by
  unfold pySortedSet
  rw [(List.perm_insertionSort strLe l.dedup).mem_iff, List.mem_dedup]

theorem splitUnderscore_ne_nil (l : List Char) : splitUnderscore l ≠ [] := by
  cases l with
  | nil => simp [splitUnderscore]
  | cons c cs =>
      simp only [splitUnderscore]
      cases h : splitUnderscore cs with
      | nil => simp
      | cons p ps => by_cases hc : c = '_' <;> simp [hc]

theorem splitUnderscore_eq_single {l q : List Char}
    (h : splitUnderscore l = [q]) : l = q ∧ '_' ∉ q := by
  induction l generalizing q with
  | nil =>
      simp only [splitUnderscore] at h
      obtain ⟨hq, -⟩ := List.cons.inj h
      subst hq
      simp
  | cons c cs ih =>
      simp only [splitUnderscore] at h
      cases hcs : splitUnderscore cs with
      | nil => exact absurd hcs (splitUnderscore_ne_nil cs)
      | cons p ps =>
          rw [hcs] at h
          dsimp only at h
          by_cases hc : c = '_'
          · rw [if_pos hc] at h; exact absurd h (by simp)
          · rw [if_neg hc] at h
            obtain ⟨hq, hps⟩ := List.cons.inj h
            subst hps
            obtain ⟨rfl, hnp⟩ := ih hcs
            subst hq
            refine ⟨rfl, ?_⟩
            intro hmem
            rcases List.mem_cons.mp hmem with rfl | hmem
            · exact hc rfl
            · exact hnp hmem

theorem splitUnderscore_no_underscore {l : List Char} (h : '_' ∉ l) :
    splitUnderscore l = [l] := by
  induction l with
  | nil => rfl
  | cons c cs ih =>
      have hc : c ≠ '_' := fun hc => h (hc ▸ List.mem_cons_self c cs)
      have hcs : '_' ∉ cs := fun hm => h (List.mem_cons_of_mem c hm)
      simp only [splitUnderscore, ih hcs]
      simp [hc]

theorem splitUnderscore_pair {l p q : List Char} :
    splitUnderscore l = [p, q] ↔ l = p ++ '_' :: q ∧ '_' ∉ p ∧ '_' ∉ q := by
  constructor
  · intro h
    induction l generalizing p with
    | nil => simp [splitUnderscore] at h
    | cons c cs ih =>
        simp only [splitUnderscore] at h
        cases hcs : splitUnderscore cs with
        | nil => exact absurd hcs (splitUnderscore_ne_nil cs)
        | cons p' ps' =>
            rw [hcs] at h
            dsimp only at h
            by_cases hc : c = '_'
            · simp only [hc, if_true] at h
              obtain ⟨rfl, rfl, rfl⟩ : p = [] ∧ p' = q ∧ ps' = [] := by
                cases h; exact ⟨rfl, rfl, rfl⟩
              obtain ⟨rfl, hnq⟩ := splitUnderscore_eq_single hcs
              exact ⟨by simp [hc], by simp, hnq⟩
            · simp only [hc, if_false] at h
              obtain ⟨rfl, rfl⟩ : c :: p' = p ∧ ps' = [q] := by
                cases h; exact ⟨rfl, rfl⟩
              obtain ⟨rfl, hnp', hnq⟩ := ih (by rw [hcs])
              refine ⟨rfl, ?_, hnq⟩
              intro hmem
              rcases List.mem_cons.mp hmem with rfl | hmem
              · exact hc rfl
              · exact hnp' hmem
  · rintro ⟨rfl, hnp, hnq⟩
    induction p with
    | nil => simp [splitUnderscore, splitUnderscore_no_underscore hnq]
    | cons c cp ih =>
        have hc : c ≠ '_' := fun hc => hnp (hc ▸ List.mem_cons_self c cp)
        have hcp : '_' ∉ cp := fun hm => hnp (List.mem_cons_of_mem c hm)
        rw [List.cons_append]
        simp only [splitUnderscore]
        rw [ih hcp]
        simp [hc]

theorem isDigit_not_isWhitespace {c : Char} (h : c.isDigit = true) :
    c.isWhitespace = false := by
  by_contra hw
  have hw' : c.isWhitespace = true := by
    cases hwc : c.isWhitespace
    · exact absurd hwc hw
    · rfl
  simp only [Char.isWhitespace, Bool.or_eq_true, decide_eq_true_eq] at hw'
  rcases hw' with ((rfl | rfl) | rfl) | rfl <;> exact absurd h (by decide)

theorem pyIntParse_digits {ds : List Char} (hne : ds ≠ [])
    (hd : ds.all Char.isDigit = true) :
    pyIntParse ds = some ((digitsToNat ds : Nat) : Int) := by
  obtain ⟨d, rest, rfl⟩ := List.exists_cons_of_ne_nil hne
  have hdigit : d.isDigit = true := by
    simpa using (List.all_eq_true.mp hd d (List.mem_cons_self d rest))
  have h1 : (d :: rest).dropWhile Char.isWhitespace = d :: rest := by
    rw [List.dropWhile_cons]
    simp [isDigit_not_isWhitespace hdigit]
  have hrevne : (d :: rest).reverse ≠ [] := by simp
  obtain ⟨e, es, hrev⟩ := List.exists_cons_of_ne_nil hrevne
  have hedigit : e.isDigit = true := by
    have he : e ∈ (d :: rest).reverse := by rw [hrev]; exact List.mem_cons_self e es
    exact List.all_eq_true.mp hd e (List.mem_reverse.mp he)
  have h2 : ((d :: rest).reverse.dropWhile Char.isWhitespace).reverse = d :: rest := by
    rw [hrev, List.dropWhile_cons]
    simp only [isDigit_not_isWhitespace hedigit, Bool.false_eq_true, if_false]
    rw [← hrev, List.reverse_reverse]
  have hplus : d ≠ '+' := fun hp => by subst hp; exact absurd hdigit (by decide)
  have hminus : d ≠ '-' := fun hp => by subst hp; exact absurd hdigit (by decide)
  unfold pyIntParse
  simp only [h1, h2]
  have hchecked : digitsToNatChecked (d :: rest) = some (digitsToNat (d :: rest)) := by
    unfold digitsToNatChecked
    simp [hd]
  split
  · rename_i heq
    exact absurd (List.head_eq_of_cons_eq heq.symm) (fun hp => hplus hp.symm)
  · rename_i heq
    exact absurd (List.head_eq_of_cons_eq heq.symm) (fun hp => hminus hp.symm)
  · rw [hchecked]; rfl

theorem attrVal_device_id (r : TelemetryRecord) :
    attrVal r "device_id" = some r.device_id := rfl

theorem attrVal_room_id (r : TelemetryRecord) :
    attrVal r "room_id" = some r.room_id := rfl

theorem attrVal_device_status (r : TelemetryRecord) :
    attrVal r "device_status" = some r.device_status := rfl


theorem create_error_response_statusCode (s : Nat) (m : String)
    (e : Option (List String)) : (create_error_response s m e).statusCode = s := rfl

theorem create_response_statusCode (s : Nat) (b : JsonVal) :
    (create_response s b).statusCode = s := rfl

theorem digitChar_toNat {d : Nat} (hd : d ≤ 9) :
    (Char.ofNat ('0'.toNat + d)).toNat = '0'.toNat + d := by
  interval_cases d <;> decide

theorem digitChar_isDigit {d : Nat} (hd : d ≤ 9) :
    (Char.ofNat ('0'.toNat + d)).isDigit = true := by
  interval_cases d <;> decide

theorem mkRoomId_valid {n : Nat} (h1 : 0 < n) (h2 : n < 1000) :
    ∃ ds : List Char, (mkRoomId n).data = "room_".data ++ ds ∧ ds.length = 3 ∧
      (∀ c ∈ ds, c.isDigit = true) ∧ 0 < digitsToNat ds := by
  refine ⟨[Char.ofNat ('0'.toNat + n / 100),
           Char.ofNat ('0'.toNat + (n / 10) % 10),
           Char.ofNat ('0'.toNat + n % 10)], rfl, rfl, ?_, ?_⟩
  · intro c hc
    have ha : n / 100 ≤ 9 := by omega
    have hb : (n / 10) % 10 ≤ 9 := by omega
    have hcn : n % 10 ≤ 9 := by omega
    simp only [List.mem_cons, List.not_mem_nil, or_false] at hc
    rcases hc with rfl | rfl | rfl
    · exact digitChar_isDigit ha
    · exact digitChar_isDigit hb
    · exact digitChar_isDigit hcn
  · have ha : n / 100 ≤ 9 := by omega
    have hb : (n / 10) % 10 ≤ 9 := by omega
    have hcn : n % 10 ≤ 9 := by omega
    unfold digitsToNat
    simp only [List.foldl_cons, List.foldl_nil]
    rw [digitChar_toNat ha, digitChar_toNat hb, digitChar_toNat hcn]
    have h0 : '0'.toNat = 48 := by decide
    rw [h0]
    omega

theorem validate_room_id_iff (s : String) :
    validate_room_id s = true ↔
      ∃ ds : List Char, s.data = "room_".data ++ ds ∧ ds.length = 3 ∧
        (∀ c ∈ ds, c.isDigit = true) ∧ 0 < digitsToNat ds := by
  constructor
  · intro h
    unfold validate_room_id at h
    rcases hsp : splitUnderscore s.data with _ | ⟨pre, _ | ⟨num, _ | rest⟩⟩ <;>
      rw [hsp] at h <;> dsimp only at h
    · cases h
    · cases h
    · by_cases hpre : pre = "room".data
      · rw [if_neg (by simpa using hpre)] at h
        cases hp : pyIntParse num with
        | none => rw [hp] at h; cases h
        | some v =>
            rw [hp] at h
            dsimp only at h
            simp only [Bool.and_eq_true, decide_eq_true_eq] at h
            obtain ⟨⟨hv, hlen⟩, hdig⟩ := h
            have hne : num ≠ [] := by
              intro hnil; rw [hnil] at hlen; simp at hlen
            have hp2 := pyIntParse_digits hne hdig
            rw [hp] at hp2
            have hveq : v = (digitsToNat num : Int) := by
              injection hp2
            obtain ⟨hdata, -, -⟩ := splitUnderscore_pair.mp hsp
            refine ⟨num, ?_, hlen, ?_, ?_⟩
            · rw [hdata, hpre]; rfl
            · intro c hc
              exact List.all_eq_true.mp hdig c hc
            · rw [hveq] at hv
              exact_mod_cast hv
      · rw [if_pos (by simpa using hpre)] at h
        cases h
    · cases h
  · rintro ⟨ds, hdata, hlen, hdig, hval⟩
    have hne : ds ≠ [] := by intro hnil; rw [hnil] at hlen; simp at hlen
    have hall : ds.all Char.isDigit = true :=
      List.all_eq_true.mpr (fun c hc => hdig c hc)
    have hnou : '_' ∉ ds := by
      intro hm
      have := hdig '_' hm
      exact absurd this (by decide)
    have hsp : splitUnderscore s.data = ["room".data, ds] := by
      apply splitUnderscore_pair.mpr
      refine ⟨?_, by decide, hnou⟩
      rw [hdata]; rfl
    unfold validate_room_id
    rw [hsp]
    dsimp only
    rw [if_neg (by simp)]
    rw [pyIntParse_digits hne hall]
    dsimp only
    simp only [Bool.and_eq_true, decide_eq_true_eq]
    refine ⟨⟨?_, hlen⟩, hall⟩
    exact_mod_cast hval

theorem handle_root_props (store : List TelemetryRecord) (event : ApiEvent) :
    count_ok (handle_root store event) ∧ (handle_root store event).statusCode ≠ 404 := by
  unfold count_ok handle_root
  refine ⟨fun _ => ⟨"data", (query_all_devices store).map recordJson,
    Or.inl rfl, rfl, ?_⟩, by rw [create_response_statusCode]; decide⟩
  rw [List.length_map]
  rfl

theorem handle_device_detail_props (store : List TelemetryRecord) (event : ApiEvent) :
    count_ok (handle_device_detail store event) ∧
      (handle_device_detail store event).statusCode ≠ 404 := by
  unfold count_ok handle_device_detail
  dsimp only
  split
  · exact ⟨fun h => absurd (create_error_response_statusCode _ _ _ ▸ h) (by decide),
      by rw [create_error_response_statusCode]; decide⟩
  · split
    · exact ⟨fun h => absurd (create_error_response_statusCode _ _ _ ▸ h) (by decide),
        by rw [create_error_response_statusCode]; decide⟩
    · split
      · exact ⟨fun h => absurd (create_error_response_statusCode _ _ _ ▸ h) (by decide),
          by rw [create_error_response_statusCode]; decide⟩
      · refine ⟨fun _ => ⟨"data", _, Or.inl rfl, rfl, ?_⟩,
          by rw [create_response_statusCode]; decide⟩
        rw [List.length_map]
        rfl



theorem handle_devices_list_props (store : List TelemetryRecord) (event : ApiEvent) :
    count_ok (handle_devices_list store event) ∧
      (handle_devices_list store event).statusCode ≠ 404 := by
  unfold count_ok handle_devices_list
  refine ⟨fun _ => ⟨"devices", (get_unique_devices store).map JsonVal.str,
    Or.inr (Or.inl rfl), rfl, ?_⟩, by rw [create_response_statusCode]; decide⟩
  rw [List.length_map]
  rfl

theorem handle_rooms_list_props (store : List TelemetryRecord) (event : ApiEvent) :
    count_ok (handle_rooms_list store event) ∧
      (handle_rooms_list store event).statusCode ≠ 404 := by
  unfold count_ok handle_rooms_list
  refine ⟨fun _ => ⟨"rooms", (get_unique_rooms store).map JsonVal.str,
    Or.inr (Or.inr rfl), rfl, ?_⟩, by rw [create_response_statusCode]; decide⟩
  rw [List.length_map]
  rfl

theorem handle_device_rooms_props (store : List TelemetryRecord) (event : ApiEvent) :
    count_ok (handle_device_rooms store event) ∧
      (handle_device_rooms store event).statusCode ≠ 404 := by
  unfold count_ok handle_device_rooms
  dsimp only
  split
  · exact ⟨fun h => absurd (create_error_response_statusCode _ _ _ ▸ h) (by decide),
      by rw [create_error_response_statusCode]; decide⟩
  · split
    · exact ⟨fun h => absurd (create_error_response_statusCode _ _ _ ▸ h) (by decide),
        by rw [create_error_response_statusCode]; decide⟩
    · refine ⟨fun _ => ⟨"rooms", _, Or.inr (Or.inr rfl), rfl, ?_⟩,
        by rw [create_response_statusCode]; decide⟩
      rw [List.length_map]
      rfl

theorem handle_device_room_detail_props (store : List TelemetryRecord)
    (event : ApiEvent) :
    count_ok (handle_device_room_detail store event) ∧
      (handle_device_room_detail store event).statusCode ≠ 404 := by
  unfold count_ok handle_device_room_detail
  dsimp only
  split
  · exact ⟨fun h => absurd (create_error_response_statusCode _ _ _ ▸ h) (by decide),
      by rw [create_error_response_statusCode]; decide⟩
  · split
    · exact ⟨fun h => absurd (create_error_response_statusCode _ _ _ ▸ h) (by decide),
        by rw [create_error_response_statusCode]; decide⟩
    · split
      all_goals first
      | exact ⟨fun h => absurd (create_error_response_statusCode _ _ _ ▸ h) (by decide),
          by rw [create_error_response_statusCode]; decide⟩
      | (refine ⟨fun _ => ⟨"data", _, Or.inl rfl, rfl, ?_⟩,
          by rw [create_response_statusCode]; decide⟩;
         rw [List.length_map]; rfl)

theorem handle_room_detail_props (store : List TelemetryRecord) (event : ApiEvent) :
    count_ok (handle_room_detail store event) ∧
      (handle_room_detail store event).statusCode ≠ 404 := by
  unfold count_ok handle_room_detail
  dsimp only
  split
  · exact ⟨fun h => absurd (create_error_response_statusCode _ _ _ ▸ h) (by decide),
      by rw [create_error_response_statusCode]; decide⟩
  · split
    · exact ⟨fun h => absurd (create_error_response_statusCode _ _ _ ▸ h) (by decide),
        by rw [create_error_response_statusCode]; decide⟩
    · split
      · exact ⟨fun h => absurd (create_error_response_statusCode _ _ _ ▸ h) (by decide),
          by rw [create_error_response_statusCode]; decide⟩
      · refine ⟨fun _ => ⟨"data", _, Or.inl rfl, rfl, ?_⟩,
          by rw [create_response_statusCode]; decide⟩
        rw [List.length_map]
        rfl

theorem handle_room_devices_props (store : List TelemetryRecord) (event : ApiEvent) :
    count_ok (handle_room_devices store event) ∧
      (handle_room_devices store event).statusCode ≠ 404 := by
  unfold count_ok handle_room_devices
  dsimp only
  split
  · exact ⟨fun h => absurd (create_error_response_statusCode _ _ _ ▸ h) (by decide),
      by rw [create_error_response_statusCode]; decide⟩
  · split
    · exact ⟨fun h => absurd (create_error_response_statusCode _ _ _ ▸ h) (by decide),
        by rw [create_error_response_statusCode]; decide⟩
    · exact ⟨fun _ => ⟨"devices", _, Or.inr (Or.inl rfl), rfl, rfl⟩,
        by rw [create_response_statusCode]; decide⟩

theorem handle_room_device_detail_props (store : List TelemetryRecord)
    (event : ApiEvent) :
    count_ok (handle_room_device_detail store event) ∧
      (handle_room_device_detail store event).statusCode ≠ 404 := by
  unfold count_ok handle_room_device_detail
  dsimp only
  split
  · exact ⟨fun h => absurd (create_error_response_statusCode _ _ _ ▸ h) (by decide),
      by rw [create_error_response_statusCode]; decide⟩
  · split
    · exact ⟨fun h => absurd (create_error_response_statusCode _ _ _ ▸ h) (by decide),
        by rw [create_error_response_statusCode]; decide⟩
    · split
      all_goals first
      | exact ⟨fun h => absurd (create_error_response_statusCode _ _ _ ▸ h) (by decide),
          by rw [create_error_response_statusCode]; decide⟩
      | (refine ⟨fun _ => ⟨"data", _, Or.inl rfl, rfl, ?_⟩,
          by rw [create_response_statusCode]; decide⟩;
         rw [List.length_map]; rfl)



theorem lookup_ROUTE_HANDLERS {k : String × String}
    {f : List TelemetryRecord → ApiEvent → ApiResponse}
    (h : ROUTE_HANDLERS.lookup k = some f) :
    f = handle_root ∨ f = handle_devices_list ∨ f = handle_device_detail ∨
    f = handle_device_rooms ∨ f = handle_device_room_detail ∨
    f = handle_rooms_list ∨ f = handle_room_detail ∨
    f = handle_room_devices ∨ f = handle_room_device_detail := by
  simp only [ROUTE_HANDLERS, List.lookup] at h
  repeat' split at h
  all_goals simp_all


/-! ## Claim theorems -/

/-- C3: `validate_status s` is true iff `s` is exactly one of the four
lowercase strings `ok`, `sensor_error`, `offline`, `maintenance`; in
particular it rejects `OK`, `broken` and the empty string (the match is
case-sensitive). -/
theorem validate_status_spec (s : String) :
    (validate_status s = true ↔
      s = "ok" ∨ s = "sensor_error" ∨ s = "offline" ∨ s = "maintenance")
    ∧ validate_status "OK" = false
    ∧ validate_status "broken" = false
    ∧ validate_status "" = false := by
  refine ⟨?_, by decide, by decide, by decide⟩
  simp [validate_status]

/-- The error-accumulating loop of `validate_params` computes exactly one
error string, in iteration order, for each present parameter whose
registered validator rejects it. -/
theorem validationErrors_eq (params : List (String × Option String))
    (validators : List (String × (String → Bool))) :
    validationErrors params validators =
      params.filterMap (fun pv =>
        match pv.2, validators.lookup pv.1 with
        | some v, some f =>
            if f v then none else some ("Invalid " ++ pv.1 ++ ": " ++ v)
        | _, _ => none) := by
  induction params with
  | nil => rfl
  | cons pv rest ih =>
      obtain ⟨param, value⟩ := pv
      simp only [validationErrors, List.filterMap_cons]
      cases value with
      | none => simpa using ih
      | some v =>
          cases hl : validators.lookup param with
          | none => simpa using ih
          | some f => cases hf : f v <;> simp [hf, ih]

/-- C7: `validate_params` returns `(ok, errors)` where `errors` holds
exactly one string `"Invalid <name>: <value>"` per present parameter whose
registered validator rejects its value, in the iteration order of `params`;
absent (`None`) parameters contribute no error; and `ok` is true exactly
when `errors` is empty. -/
theorem validate_params_spec (params : List (String × Option String))
    (validators : List (String × (String → Bool))) :
    (validate_params params validators).2 =
      params.filterMap (fun pv =>
        match pv.2, validators.lookup pv.1 with
        | some v, some f =>
            if f v then none else some ("Invalid " ++ pv.1 ++ ": " ++ v)
        | _, _ => none)
    ∧ ((validate_params params validators).1 = true ↔
        (validate_params params validators).2 = []) := by
  refine ⟨validationErrors_eq params validators, ?_⟩
  simp [validate_params, List.isEmpty_iff]

/-- C8: in every access plan, both times given builds an inclusive
`between`, only `start_time` an inclusive `gte`, only `end_time` an
inclusive `lte`, and neither no sort-key condition at all (the full
partition/index range, whose condition holds of every timestamp) — for the
by-device, by-room, and both intersection query functions. -/
theorem time_range_spec (did rid : String) (status : Option String)
    (s e : String) (hs : s ≠ "") (he : e ≠ "") :
    ((query_device_by_id_plan did (some s) (some e) status).sortCond = .between s e
      ∧ (query_device_by_id_plan did (some s) none status).sortCond = .gte s
      ∧ (query_device_by_id_plan did none (some e) status).sortCond = .lte e
      ∧ (query_device_by_id_plan did none none status).sortCond = .full)
    ∧ ((query_room_by_id_plan rid (some s) (some e)).sortCond = .between s e
      ∧ (query_room_by_id_plan rid (some s) none).sortCond = .gte s
      ∧ (query_room_by_id_plan rid none (some e)).sortCond = .lte e
      ∧ (query_room_by_id_plan rid none none).sortCond = .full)
    ∧ ((query_device_in_specific_room_plan did rid (some s) (some e) status).sortCond
          = .between s e
      ∧ (query_device_in_specific_room_plan did rid (some s) none status).sortCond
          = .gte s
      ∧ (query_device_in_specific_room_plan did rid none (some e) status).sortCond
          = .lte e
      ∧ (query_device_in_specific_room_plan did rid none none status).sortCond
          = .full)
    ∧ ((query_room_device_specific_plan rid did (some s) (some e) status).sortCond
          = .between s e
      ∧ (query_room_device_specific_plan rid did (some s) none status).sortCond
          = .gte s
      ∧ (query_room_device_specific_plan rid did none (some e) status).sortCond
          = .lte e
      ∧ (query_room_device_specific_plan rid did none none status).sortCond
          = .full)
    ∧ (∀ ts : String, SortCond.full.holds ts = true) := by
  refine ⟨⟨?_, ?_, ?_, ?_⟩, ⟨?_, ?_, ?_, ?_⟩, ⟨?_, ?_, ?_, ?_⟩, ⟨?_, ?_, ?_, ?_⟩,
    fun ts => rfl⟩ <;>
  simp [query_device_by_id_plan, query_room_by_id_plan,
    query_device_in_specific_room_plan, query_room_device_specific_plan,
    timeKeyCond, pyTruthy, hs, he]

/-- Witness for `time_range_spec` at concrete inputs. -/
theorem time_range_spec_witness :
    (query_device_by_id_plan "fridge_01" (some "2025-08-01T00:00:00Z")
        (some "2025-08-02T00:00:00Z") none).sortCond =
      .between "2025-08-01T00:00:00Z" "2025-08-02T00:00:00Z" :=
  (time_range_spec "fridge_01" "room_001" none "2025-08-01T00:00:00Z"
    "2025-08-02T00:00:00Z" (by decide) (by decide)).1.1

/-- C1: the device-partition strategy (`query_device_in_specific_room`)
and the secondary-index strategy (`query_room_device_specific`) select
exactly the same records, for every store and all inputs. -/
theorem intersection_strategies_agree (store : List TelemetryRecord)
    (device_id room_id : String) (start_time end_time status : Option String)
    (r : TelemetryRecord) :
    r ∈ query_device_in_specific_room store device_id room_id
          start_time end_time status ↔
    r ∈ query_room_device_specific store room_id device_id
          start_time end_time status := by
  unfold query_device_in_specific_room query_room_device_specific runQuery
  simp only [List.mem_filter]
  have hiff : matchesPlan (query_device_in_specific_room_plan device_id room_id
        start_time end_time status) r = true ↔
      matchesPlan (query_room_device_specific_plan room_id device_id
        start_time end_time status) r = true := by
    unfold matchesPlan query_device_in_specific_room_plan
      query_room_device_specific_plan
    cases hst : pyTruthy status <;>
      simp [hst, attrVal_device_id, attrVal_room_id, attrVal_device_status] <;>
      tauto
  constructor
  · rintro ⟨hmem, hm⟩; exact ⟨hmem, hiff.mp hm⟩
  · rintro ⟨hmem, hm⟩; exact ⟨hmem, hiff.mpr hm⟩

/-- C9: every listing operation returns a duplicate-free, lexicographically
sorted sequence, for every store state; `get_devices_in_room` wraps that
sorted sequence of device ids into objects. -/
theorem listings_sorted_spec (store : List TelemetryRecord) (did rid : String) :
    ((get_unique_devices store).Nodup
      ∧ List.Sorted strLe (get_unique_devices store))
    ∧ ((get_unique_rooms store).Nodup
      ∧ List.Sorted strLe (get_unique_rooms store))
    ∧ ((query_device_room_info store did).Nodup
      ∧ List.Sorted strLe (query_device_room_info store did))
    ∧ ((devices_in_room_ids store rid).Nodup
      ∧ List.Sorted strLe (devices_in_room_ids store rid))
    ∧ get_devices_in_room store rid =
        (devices_in_room_ids store rid).map
          (fun d => JsonVal.obj [("device_id", JsonVal.str d)]) :=
  ⟨⟨pySortedSet_nodup _, pySortedSet_sorted _⟩,
   ⟨pySortedSet_nodup _, pySortedSet_sorted _⟩,
   ⟨pySortedSet_nodup _, pySortedSet_sorted _⟩,
   ⟨pySortedSet_nodup _, pySortedSet_sorted _⟩, rfl⟩


/-- C5: `validate_timestamp s` is true iff `s` ends with the literal
character `Z` and, with `Z` replaced by `+00:00`, parses as a valid
calendar date-time; in particular a well-formed date-time without the
trailing `Z` is rejected, as are invalid months and invalid hours. -/
theorem validate_timestamp_spec (s : String) :
    (validate_timestamp s = true ↔
      s.data.getLast? = some 'Z' ∧ fromisoformatOk (replaceZ s.data) = true)
    ∧ validate_timestamp "2025-08-01T00:00:00Z" = true
    ∧ validate_timestamp "2025-13-01T00:00:00Z" = false
    ∧ validate_timestamp "2025-08-01T25:00:00Z" = false
    ∧ validate_timestamp "2025-08-01T10:00:00" = false := by
  refine ⟨?_, by decide, by decide, by decide, by decide⟩
  unfold validate_timestamp
  by_cases hz : s.data.getLast? = some 'Z'
  · simp [hz]
  · simp [hz]

/-- C4: `validate_room_id s` is true iff `s` splits on exactly one
underscore into the literal prefix `room` and a 3-character numeric string
whose integer value is greater than 0; so `room_001` through `room_999`
(here `mkRoomId n` for `0 < n < 1000`) are valid, while `room_000`,
`room_1`, `room_0001`, `ROOM_001` and `room_abc` are all invalid. -/
theorem validate_room_id_spec (s : String) (n : Nat) (h1 : 0 < n) (h2 : n < 1000) :
    (validate_room_id s = true ↔
      ∃ ds : List Char, s.data = "room_".data ++ ds ∧ ds.length = 3 ∧
        (∀ c ∈ ds, c.isDigit = true) ∧ 0 < digitsToNat ds)
    ∧ validate_room_id (mkRoomId n) = true
    ∧ validate_room_id "room_000" = false
    ∧ validate_room_id "room_1" = false
    ∧ validate_room_id "room_0001" = false
    ∧ validate_room_id "ROOM_001" = false
    ∧ validate_room_id "room_abc" = false := by
  refine ⟨validate_room_id_iff s, ?_, by decide, by decide, by decide, by decide,
    by decide⟩
  exact (validate_room_id_iff (mkRoomId n)).mpr (mkRoomId_valid h1 h2)

/-- Witness for `validate_room_id_spec` at concrete inputs. -/
theorem validate_room_id_spec_witness :
    validate_room_id (mkRoomId 42) = true :=
  (validate_room_id_spec "room_001" 42 (by decide) (by decide)).2.1

/-- C2: every inbound event that produces a success (200) response has a
body whose `count` field equals the length of the payload array (`data`,
`devices` or `rooms`) in that same body, for every registered route. -/
theorem count_matches_payload (store : List TelemetryRecord) (event : ApiEvent)
    (h200 : (handler store event).statusCode = 200) :
    ∃ key xs, (key = "data" ∨ key = "devices" ∨ key = "rooms") ∧
      bodyField (handler store event) key = some (JsonVal.arr xs) ∧
      bodyField (handler store event) "count" = some (JsonVal.num xs.length) := by
  unfold handler at h200 ⊢
  dsimp only at h200 ⊢
  generalize hl : ROUTE_HANDLERS.lookup
      (event.httpMethod.getD "GET", event.resource.getD "/") = res at h200 ⊢
  cases res with
  | none =>
      dsimp only at h200
      exact absurd (create_error_response_statusCode _ _ _ ▸ h200) (by decide)
  | some f =>
      dsimp only at h200 ⊢
      rcases lookup_ROUTE_HANDLERS hl with
        rfl | rfl | rfl | rfl | rfl | rfl | rfl | rfl | rfl
      · exact (handle_root_props store event).1 h200
      · exact (handle_devices_list_props store event).1 h200
      · exact (handle_device_detail_props store event).1 h200
      · exact (handle_device_rooms_props store event).1 h200
      · exact (handle_device_room_detail_props store event).1 h200
      · exact (handle_rooms_list_props store event).1 h200
      · exact (handle_room_detail_props store event).1 h200
      · exact (handle_room_devices_props store event).1 h200
      · exact (handle_room_device_detail_props store event).1 h200

theorem count_matches_payload_witness :
    ∃ key xs, (key = "data" ∨ key = "devices" ∨ key = "rooms") ∧
      bodyField (handler [] ⟨none, none, none, none⟩) key = some (JsonVal.arr xs) ∧
      bodyField (handler [] ⟨none, none, none, none⟩) "count" =
        some (JsonVal.num xs.length) :=
  count_matches_payload [] ⟨none, none, none, none⟩ rfl

/-- C6: the router returns the structured 404 error envelope exactly when
the (method, resource-template) pair is not one of the nine registered GET
routes; when matched, the event is dispatched to the registered handler
(never a 404), and all nine routes of the route table — including
`GET /devices/{device_id}/rooms` and `GET /devices/{device_id}/{room_id}`
— are registered. -/
theorem routing_spec (store : List TelemetryRecord) (event : ApiEvent) :
    ((handler store event).statusCode = 404 ↔
      ROUTE_HANDLERS.lookup
        (event.httpMethod.getD "GET", event.resource.getD "/") = none)
    ∧ (ROUTE_HANDLERS.lookup
          (event.httpMethod.getD "GET", event.resource.getD "/") = none →
        handler store event = create_error_response 404
          ("Route not found: " ++ event.httpMethod.getD "GET" ++ " " ++
            event.resource.getD "/") none)
    ∧ (∀ f, ROUTE_HANDLERS.lookup
          (event.httpMethod.getD "GET", event.resource.getD "/") = some f →
        handler store event = f store event)
    ∧ ROUTE_HANDLERS.lookup ("GET", "/") = some handle_root
    ∧ ROUTE_HANDLERS.lookup ("GET", "/devices") = some handle_devices_list
    ∧ ROUTE_HANDLERS.lookup ("GET", "/devices/{device_id}") = some handle_device_detail
    ∧ ROUTE_HANDLERS.lookup ("GET", "/devices/{device_id}/rooms") = some handle_device_rooms
    ∧ ROUTE_HANDLERS.lookup ("GET", "/devices/{device_id}/{room_id}") = some handle_device_room_detail
    ∧ ROUTE_HANDLERS.lookup ("GET", "/rooms") = some handle_rooms_list
    ∧ ROUTE_HANDLERS.lookup ("GET", "/rooms/{room_id}") = some handle_room_detail
    ∧ ROUTE_HANDLERS.lookup ("GET", "/rooms/{room_id}/devices") = some handle_room_devices
    ∧ ROUTE_HANDLERS.lookup ("GET", "/rooms/{room_id}/{device_id}") = some handle_room_device_detail := by
  refine ⟨?_, ?_, ?_, rfl, rfl, rfl, rfl, rfl, rfl, rfl, rfl, rfl⟩
  · unfold handler
    dsimp only
    cases hl : ROUTE_HANDLERS.lookup
        (event.httpMethod.getD "GET", event.resource.getD "/") with
    | none => simp [create_error_response_statusCode]
    | some f =>
        dsimp only
        constructor
        · intro h404
          rcases lookup_ROUTE_HANDLERS hl with
            rfl | rfl | rfl | rfl | rfl | rfl | rfl | rfl | rfl
          · exact absurd h404 (handle_root_props store event).2
          · exact absurd h404 (handle_devices_list_props store event).2
          · exact absurd h404 (handle_device_detail_props store event).2
          · exact absurd h404 (handle_device_rooms_props store event).2
          · exact absurd h404 (handle_device_room_detail_props store event).2
          · exact absurd h404 (handle_rooms_list_props store event).2
          · exact absurd h404 (handle_room_detail_props store event).2
          · exact absurd h404 (handle_room_devices_props store event).2
          · exact absurd h404 (handle_room_device_detail_props store event).2
        · intro hcontra; cases hcontra
  · intro hnone
    unfold handler
    dsimp only
    rw [hnone]
  · intro f hf
    unfold handler
    dsimp only
    rw [hf]

theorem routing_spec_witness :
    (handler [] ⟨some "POST", some "/", none, none⟩).statusCode = 404 :=
  (routing_spec [] ⟨some "POST", some "/", none, none⟩).1.mpr rfl

/-- C10: omitting `httpMethod` defaults the method to `GET`, omitting
`resource` defaults the template to `/`, and the empty event is dispatched
to the root handler with a 200, never a 404. -/
theorem default_route_spec (store : List TelemetryRecord) (event : ApiEvent) :
    (event.httpMethod = none →
      handler store event =
        handler store ⟨some "GET", event.resource, event.pathParameters,
          event.queryStringParameters⟩)
    ∧ (event.resource = none →
      handler store event =
        handler store ⟨event.httpMethod, some "/", event.pathParameters,
          event.queryStringParameters⟩)
    ∧ handler store ⟨none, none, none, none⟩ =
        handle_root store ⟨none, none, none, none⟩
    ∧ (handler store ⟨none, none, none, none⟩).statusCode = 200 := by
  refine ⟨?_, ?_, rfl, rfl⟩
  · intro hm
    unfold handler
    dsimp only
    rw [hm, Option.getD_none, Option.getD_some]
    cases hl : ROUTE_HANDLERS.lookup ("GET", event.resource.getD "/") with
    | none => rfl
    | some f =>
        rcases lookup_ROUTE_HANDLERS hl with
          rfl | rfl | rfl | rfl | rfl | rfl | rfl | rfl | rfl <;> rfl
  · intro hr
    unfold handler
    dsimp only
    rw [hr, Option.getD_none, Option.getD_some]
    cases hl : ROUTE_HANDLERS.lookup (event.httpMethod.getD "GET", "/") with
    | none => rfl
    | some f =>
        rcases lookup_ROUTE_HANDLERS hl with
          rfl | rfl | rfl | rfl | rfl | rfl | rfl | rfl | rfl <;> rfl

theorem default_route_spec_witness :
    handler [] ⟨none, none, none, none⟩ =
      handler [] ⟨some "GET", none, none, none⟩ :=
  (default_route_spec [] ⟨none, none, none, none⟩).1 rfl

/-! ## Recorded divergences of `src/main.py` -/

/-- Fact: the `src/main.py` variant of `validate_status` accepts `OK`
(case-insensitive), while the normative one rejects it. -/
theorem main_validate_status_divergence :
    main_validate_status "OK" = true ∧ validate_status "OK" = false := by
  decide

/-- Fact: the `src/main.py` variant of `validate_room_id` accepts any
non-blank string, for example `lounge`, which the normative one rejects. -/
theorem main_validate_room_id_divergence :
    main_validate_room_id "lounge" = true ∧ validate_room_id "lounge" = false := by
  decide


end AsobiServerless
